import Mathlib

/-!
Verification development for the concurrent rate-limited asset downloader of
`feishu_image_downloader.py` (class `FeishuImageDownloader`).

Embedding conventions:
* Python values flowing through the untyped record dictionaries are modelled by
  the inductive type `PyVal` (strings, integers, booleans, lists, dicts, None);
  Python truthiness is `truthy`.
* A Python `dict` is an association list with first-match lookup (Python dicts
  have unique keys).
* Wall-clock time is rational.  Every call of `time.time()` consumes the next
  value of the environment schedule `Env.times`; `time.sleep` is recorded as a
  trace event, and its physical effect is expressed as a hypothesis relating
  consecutive schedule values where a theorem needs it.
* Network responses are supplied by the environment `Env`, indexed by how many
  calls of the given kind have already been made.  Issuing a request is
  recorded as a trace `Event`; the local filesystem is the `fs` component of
  `DLState`, mapping a path to the byte list currently stored there.
* A Python exception that the source does not catch is modelled by `Option`:
  `none` means the call raised.
-/

/-- Model of an untyped Python value as it appears in the record dictionaries. -/
inductive PyVal where
  | str : String → PyVal
  | int : Int → PyVal
  | bool : Bool → PyVal
  | list : List PyVal → PyVal
  | dict : List (String × PyVal) → PyVal
  | none : PyVal

/-- Python truthiness (`bool(v)`): empty strings, zero, `False`, empty
containers and `None` are falsy. -/
def truthy : PyVal → Bool
  | PyVal.str s => !s.isEmpty
  | PyVal.int n => n != 0
  | PyVal.bool b => b
  | PyVal.list l => !l.isEmpty
  | PyVal.dict d => !d.isEmpty
  | PyVal.none => false

/-- `d.get(k, default)` on a Python dict. -/
def dictGet (d : List (String × PyVal)) (k : String) (default : PyVal) : PyVal :=
  match d.find? (fun p => p.1 == k) with
  | some p => p.2
  | Option.none => default

/-- Python `v == s` for a string literal `s`: values of a type other than
`str` compare unequal to a string. -/
def pyEqStr (v : PyVal) (s : String) : Bool :=
  match v with
  | PyVal.str t => t == s
  | _ => false

/-- Decimal digits of a natural number, fuel-driven so that it reduces in the
kernel; mirrors Python `str` on a non-negative int. -/
def natDigits : Nat → Nat → List Char → List Char
  | 0, _, acc => acc
  | fuel + 1, n, acc =>
      if n < 10 then Char.ofNat (48 + n) :: acc
      else natDigits fuel (n / 10) (Char.ofNat (48 + n % 10) :: acc)

/-- Python `str(n)` for a natural number. -/
def pyNatStr (n : Nat) : String := String.mk (natDigits (n + 1) n [])

/-- Python `str(n)` for an int. -/
def pyIntStr : Int → String
  | Int.ofNat n => pyNatStr n
  | Int.negSucc n => "-" ++ pyNatStr (n + 1)

/-- A single-quote character, used by the Python `repr` of strings. -/
def pySq : String := String.mk [Char.ofNat 39]

mutual
/-- Python `str(v)`: the value itself for a string, `repr` otherwise. -/
def pythonStr : PyVal → String
  | PyVal.str s => s
  | v => pythonRepr v

/-- Python `repr(v)` (string escaping inside quoted strings is not
reproduced; no claim depends on it). -/
def pythonRepr : PyVal → String
  | PyVal.str s => pySq ++ s ++ pySq
  | PyVal.int n => pyIntStr n
  | PyVal.bool b => if b then "True" else "False"
  | PyVal.none => "None"
  | PyVal.list l => "[" ++ pythonReprList l ++ "]"
  | PyVal.dict d => "\x7b" ++ pythonReprDict d ++ "\x7d"

/-- Comma-separated `repr`s of the elements of a Python list. -/
def pythonReprList : List PyVal → String
  | [] => ""
  | [v] => pythonRepr v
  | v :: rest => pythonRepr v ++ ", " ++ pythonReprList rest

/-- Comma-separated `key: value` pairs of a Python dict `repr`. -/
def pythonReprDict : List (String × PyVal) → String
  | [] => ""
  | [(k, v)] => pySq ++ k ++ pySq ++ ": " ++ pythonRepr v
  | (k, v) :: rest => pySq ++ k ++ pySq ++ ": " ++ pythonRepr v ++ ", " ++ pythonReprDict rest
end

/-- Index of the last occurrence of `c` in `cs`, if any. -/
def lastIndexOf (cs : List Char) (c : Char) : Option Nat :=
  match cs.reverse.findIdx? (fun a => a == c) with
  | some i => some (cs.length - 1 - i)
  | Option.none => Option.none

/-- The extension component of CPython `os.path.splitext` (posix rules):
the part from the last dot onward, unless the basename consists solely of
leading dots up to that dot. -/
def splitextExt (p : String) : String :=
  let cs := p.toList
  let sepIdx : Int := match lastIndexOf cs (Char.ofNat 47) with
    | some i => Int.ofNat i
    | Option.none => -1
  let dotIdx : Int := match lastIndexOf cs (Char.ofNat 46) with
    | some i => Int.ofNat i
    | Option.none => -1
  if sepIdx < dotIdx then
    let start := (sepIdx + 1).toNat
    let dotN := dotIdx.toNat
    let between := (cs.drop start).take (dotN - start)
    if between.any (fun a => a != Char.ofNat 46) then String.mk (cs.drop dotN) else ""
  else ""

/-- CPython `posixpath.join` for two components. -/
def pyJoin (a b : String) : String :=
  if b.toList.head? == some (Char.ofNat 47) then b
  else if a.isEmpty || (a.toList.getLast? == some (Char.ofNat 47)) then a ++ b
  else a ++ "/" ++ b

/-- Python `s.replace(c, d)` for single characters, used for the
`product_id.replace(chr(47), chr(95))` sanitisation. -/
def pyReplaceChar (s : String) (c d : Char) : String :=
  String.mk (s.toList.map (fun a => if a == c then d else a))

/-- One entry of `image_info_list` as built by
`FeishuImageDownloader.extract_image_info` (lines 108-120); the last three
fields model the keys `local_path` / `download_success` / `error_message`
that `download_image` may add later (`Option.none` = key absent). -/
structure ImageInfo where
  record_id : PyVal
  product_name : PyVal
  product_id : PyVal
  field_name : String
  image_index : Nat
  file_token : PyVal
  file_name : PyVal
  file_size : PyVal
  file_type : PyVal
  download_url : PyVal
  tmp_url : PyVal
  local_path : Option String := Option.none
  download_success : Option Bool := Option.none
  error_message : Option String := Option.none

/-- The five image field names from `extract_image_info` line 83. -/
def image_fields : List String := ["正面图片", "背面图片", "标签照片", "外包装图片", "赠品图片"]

/-- Build one `ImageInfo` from an attachment dict (lines 108-121). -/
def mkImageInfo (record_id product_name product_id : PyVal) (field_name : String)
    (i : Nat) (d : List (String × PyVal)) : ImageInfo :=
  { record_id := record_id
    product_name := product_name
    product_id := product_id
    field_name := field_name
    image_index := i
    file_token := dictGet d "file_token" (PyVal.str "")
    file_name := dictGet d "name" (PyVal.str "")
    file_size := dictGet d "size" (PyVal.int 0)
    file_type := dictGet d "type" (PyVal.str "")
    download_url := dictGet d "url" (PyVal.str "")
    tmp_url := dictGet d "tmp_url" (PyVal.str "") }

/-- The per-field loop body of `extract_image_info` (lines 102-121):
`enumerate` indexes every element of the list, and elements that are not
dicts are skipped by the `isinstance` guard. -/
def extractField (record_id product_name product_id : PyVal)
    (fields : List (String × PyVal)) (fn : String) : List ImageInfo :=
  match fields.find? (fun p => p.1 == fn) with
  | Option.none => []
  | some p =>
      if truthy p.2 then
        match p.2 with
        | PyVal.list images =>
            images.enum.filterMap (fun ie =>
              match ie.2 with
              | PyVal.dict d => some (mkImageInfo record_id product_name product_id fn ie.1 d)
              | _ => Option.none)
        | _ => []
      else []

/-- The `product_id` fallback of `extract_image_info` (lines 92-99): when the
`编号` field is falsy or the literal `未知编号`, fall back to the `序号`
field; `none` models the `AttributeError` Python raises when the first
element of a non-empty `序号` list is not a dict. -/
def productIdOf (fields : List (String × PyVal)) : Option PyVal :=
  let pid0 := dictGet fields "编号" (PyVal.str "未知编号")
  if !truthy pid0 || pyEqStr pid0 "未知编号" then
    let sequence_no := dictGet fields "序号" (PyVal.list [PyVal.dict []])
    match sequence_no with
    | PyVal.list (h :: _) =>
        match h with
        | PyVal.dict hd => some (dictGet hd "text" (PyVal.str "未知编号"))
        | _ => Option.none
    | v => some (if truthy v then PyVal.str (pythonStr v) else PyVal.str "未知编号")
  else some pid0

/-- One record of `extract_image_info` (lines 85-121).  `none` models a
raised exception: the `fields` value not being a dict, or the `序号`
fallback hitting a non-dict element. -/
def extractRecord (record : List (String × PyVal)) : Option (List ImageInfo) :=
  let record_id := dictGet record "record_id" (PyVal.str "")
  match dictGet record "fields" (PyVal.dict []) with
  | PyVal.dict fields =>
      let product_name := dictGet fields "品名" (PyVal.str "未知产品")
      match productIdOf fields with
      | Option.none => Option.none
      | some product_id =>
          some (image_fields.flatMap (extractField record_id product_name product_id fields))
  | _ => Option.none

/-- `FeishuImageDownloader.extract_image_info` (lines 78-124) over a list of
records; `none` models an uncaught exception aborting the extraction. -/
def extractImageInfo (records : List (List (String × PyVal))) : Option (List ImageInfo) :=
  (records.mapM extractRecord).map List.flatten

/-- Outcome of one POST to the credential-exchange endpoint
(`get_tenant_access_token` lines 48-63): `ok` is a code-0 body carrying the
token and the `expire` seconds, `errCode` a non-zero code, `transport` a
`requests.exceptions.RequestException`. -/
inductive TokenResp where
  | ok : String → ℚ → TokenResp
  | errCode : Int → String → TokenResp
  | transport : String → TokenResp

/-- Outcome of one GET to `batch_get_tmp_download_url`
(`get_real_download_url` lines 134-160): `json code urls` is a parsed body
whose `tmp_download_urls` entries carry the given `tmp_download_url`
strings (a missing url is the default empty string); `exn` is any raised
exception, caught by the bare `except` at line 158. -/
inductive ResolveResp where
  | json : Int → List String → ResolveResp
  | exn : String → ResolveResp

/-- Outcome of one GET against the resolved download url
(`download_image` lines 191-213).  `ok chunks interrupt` streams the given
chunks; `interrupt = some (k, msg)` makes the iteration raise (a
`RequestException`) after `k` chunks were delivered, `exn` makes the GET or
`raise_for_status` itself raise. -/
inductive FetchResp where
  | ok : List (List Nat) → Option (Nat × String) → FetchResp
  | exn : String → FetchResp

/-- Observable actions of the downloader: the `sleep` and the return of
`wait_for_rate_limit`, each kind of outbound network request, and the
filesystem side effects of `download_all_images`. -/
inductive Event where
  | sleepFor : ℚ → Event
  | rateAdmission : Event
  | tokenCall : Event
  | resolveCall : PyVal → Event
  | fetchCall : String → Event
  | mkdirCall : String → Event
  | csvWrite : String → Event
  | reportWrite : String → Event

def isRateAdmission : Event → Bool
  | Event.rateAdmission => true
  | _ => false

def isTokenCallE : Event → Bool
  | Event.tokenCall => true
  | _ => false

def isResolveCallE : Event → Bool
  | Event.resolveCall _ => true
  | _ => false

def isFetchCallE : Event → Bool
  | Event.fetchCall _ => true
  | _ => false

/-- Number of events of a given kind in a trace. -/
def countEv (p : Event → Bool) (evs : List Event) : Nat := evs.countP p

/-- External environment of one run: the `time.time()` schedule, the
responses of the three remote endpoints in call order, and the
`time.strftime` stamp. -/
structure Env where
  times : Nat → ℚ
  tokenResp : Nat → TokenResp
  resolveResp : Nat → ResolveResp
  fetchResp : Nat → FetchResp
  timestamp : String

/-- Constructor configuration (`__init__` lines 21-37).  `retry_delay` and
`max_retries` are the instance attributes set unconditionally at lines
36-37. -/
structure DLConfig where
  rate_limit : ℚ := 3
  max_workers : Nat := 2
  retry_delay : ℚ := 2
  max_retries : Nat := 3

/-- `self.min_interval = 1.0 / rate_limit` (line 27). -/
def DLConfig.min_interval (c : DLConfig) : ℚ := 1 / c.rate_limit

/-- Mutable state of a `FeishuImageDownloader` instance together with the
call counters that index into the environment schedules and the local
filesystem (`fs`: latest write first, lookup takes the first match). -/
structure DLState where
  access_token : Option String
  token_expires_at : ℚ
  last_request_time : ℚ
  progress_count : Nat
  timeIdx : Nat
  tokenIdx : Nat
  resolveIdx : Nat
  fetchIdx : Nat
  fs : List (String × List Nat)

/-- The state right after `__init__` (lines 29-35), over an empty
filesystem. -/
def initState : DLState :=
  { access_token := Option.none, token_expires_at := 0, last_request_time := 0,
    progress_count := 0, timeIdx := 0, tokenIdx := 0, resolveIdx := 0, fetchIdx := 0,
    fs := [] }

/-- Content of the file at `path`, if one exists. -/
def fsLookup (fs : List (String × List Nat)) (path : String) : Option (List Nat) :=
  match fs.find? (fun p => p.1 == path) with
  | some p => some p.2
  | Option.none => Option.none

/-- `wait_for_rate_limit` (lines 65-76): read the clock, sleep the remainder
of `min_interval` if the previous stamped request is too recent, then stamp
the clock again as the new `last_request_time`.  The body runs under
`rate_limit_lock`; concurrency is modelled by serialising the calls. -/
def waitForRateLimitM (cfg : DLConfig) (env : Env) (st : DLState) : DLState × List Event :=
  let t1 := env.times st.timeIdx
  let time_since_last := t1 - st.last_request_time
  let sleepEvs : List Event :=
    if time_since_last < cfg.min_interval
      then [Event.sleepFor (cfg.min_interval - time_since_last)] else []
  let t2 := env.times (st.timeIdx + 1)
  ({ st with timeIdx := st.timeIdx + 2, last_request_time := t2 },
   sleepEvs ++ [Event.rateAdmission])

/-- The refresh path of `get_tenant_access_token` (lines 44-63): POST the
credentials; on a code-0 body store the token and
`time.time() + expire - 300`; on a non-zero code or a transport error
return `None` leaving the cached fields unchanged. -/
def refreshToken (env : Env) (st : DLState) : Option String × DLState × List Event :=
  let resp := env.tokenResp st.tokenIdx
  let st1 := { st with tokenIdx := st.tokenIdx + 1 }
  match resp with
  | TokenResp.ok tok expire =>
      let now2 := env.times st1.timeIdx
      (some tok,
       { st1 with timeIdx := st1.timeIdx + 1, access_token := some tok,
                  token_expires_at := now2 + expire - 300 },
       [Event.tokenCall])
  | TokenResp.errCode _ _ => (Option.none, st1, [Event.tokenCall])
  | TokenResp.transport _ => (Option.none, st1, [Event.tokenCall])

/-- `get_tenant_access_token` (lines 39-63): return the cached token when it
is truthy and `time.time() < token_expires_at` (the clock is read only when
the cached token is truthy, because `and` short-circuits), else refresh. -/
def getTenantAccessTokenM (env : Env) (st : DLState) : Option String × DLState × List Event :=
  match st.access_token with
  | some tok =>
      if tok.isEmpty then refreshToken env st
      else
        let now := env.times st.timeIdx
        let st1 := { st with timeIdx := st.timeIdx + 1 }
        if now < st.token_expires_at then (some tok, st1, [])
        else refreshToken env st1
  | Option.none => refreshToken env st

/-- Python truthiness of the `Optional[str]` returned by
`get_tenant_access_token`: `None` and the empty string are falsy. -/
def optStrTruthy : Option String → Bool
  | some s => !s.isEmpty
  | Option.none => false

/-- `get_real_download_url` (lines 126-160): obtain a token (its own call to
`get_tenant_access_token`), then GET `batch_get_tmp_download_url`; the
result is the first `tmp_download_url` when the code is 0 and that url is
truthy, `None` otherwise.  No rate-limit admission happens here. -/
def getRealDownloadUrlM (env : Env) (st : DLState) (file_token : PyVal) :
    Option String × DLState × List Event :=
  let g := getTenantAccessTokenM env st
  if optStrTruthy g.1 = false then (Option.none, g.2.1, g.2.2)
  else
    let resp := env.resolveResp g.2.1.resolveIdx
    let st2 := { g.2.1 with resolveIdx := g.2.1.resolveIdx + 1 }
    let evs := g.2.2 ++ [Event.resolveCall file_token]
    match resp with
    | ResolveResp.exn _ => (Option.none, st2, evs)
    | ResolveResp.json code urls =>
        if code = 0 then
          match urls with
          | [] => (Option.none, st2, evs)
          | u :: _ => if u.isEmpty then (Option.none, st2, evs) else (some u, st2, evs)
        else (Option.none, st2, evs)

/-- `os.path.splitext`-based extension choice of `download_image` (lines
199-203): a truthy string name contributes its extension, a falsy name the
default `.jpg`; a truthy non-string raises `TypeError` (`none`), caught by
the generic handler at line 238. -/
def extOfName : PyVal → Option String
  | PyVal.str s => if s.isEmpty then some ".jpg" else some (splitextExt s)
  | v => if truthy v then Option.none else some ".jpg"

/-- `safe_filename` of `download_image` (lines 194-206):
`{product_id with chr(47) replaced by chr(95)}_{field_name}_{image_index}{ext}`.
`none` models the `AttributeError` when `product_id` is not a string. -/
def buildFileName (info : ImageInfo) : Option String :=
  match info.product_id with
  | PyVal.str pid =>
      match extOfName info.file_name with
      | some ext =>
          some (pyReplaceChar pid (Char.ofNat 47) (Char.ofNat 95) ++ "_" ++ info.field_name
            ++ "_" ++ pyNatStr info.image_index ++ ext)
      | Option.none => Option.none
  | _ => Option.none

/-- `file_path = os.path.join(output_dir, safe_filename)` (line 207). -/
def buildFilePath (info : ImageInfo) (output_dir : String) : Option String :=
  (buildFileName info).map (pyJoin output_dir)

/-- Bytes on disk after writing a sequence of chunks: `iter_content` chunks
are written in order, empty chunks are skipped by the `if chunk:` guard
(lines 211-213). -/
def writtenBytes (chunks : List (List Nat)) : List Nat :=
  (chunks.filter (fun c => !c.isEmpty)).flatten

/-- The `try` block of `download_image` (lines 188-242): GET the resolved
url, build the output path, open the file at the final path and stream the
chunks into it.  A transport error before any write leaves the filesystem
unchanged; an interruption after `k` chunks leaves the bytes written so far
at the final path (`open(file_path, chr(39)+wb+chr(39))` truncates and writes in
place, there is no temporary file and no rename); a path-building type
error is caught by the generic handler. -/
def fetchAndSave (env : Env) (st : DLState) (info : ImageInfo) (output_dir url : String) :
    Bool × ImageInfo × DLState × List Event :=
  let resp := env.fetchResp st.fetchIdx
  let st1 := { st with fetchIdx := st.fetchIdx + 1 }
  match resp with
  | FetchResp.exn detail =>
      (false, { info with download_success := some false, error_message := some detail },
       st1, [Event.fetchCall url])
  | FetchResp.ok chunks interrupt =>
      match buildFilePath info output_dir with
      | Option.none =>
          (false, { info with download_success := some false,
                              error_message := some "TypeError" }, st1, [Event.fetchCall url])
      | some path =>
          match interrupt with
          | some ki =>
              if ki.1 < chunks.length then
                (false, { info with download_success := some false,
                                    error_message := some ki.2 },
                 { st1 with fs := (path, writtenBytes (chunks.take ki.1)) :: st1.fs },
                 [Event.fetchCall url])
              else
                (true, { info with local_path := some path, download_success := some true },
                 { st1 with fs := (path, writtenBytes chunks) :: st1.fs },
                 [Event.fetchCall url])
          | Option.none =>
              (true, { info with local_path := some path, download_success := some true },
               { st1 with fs := (path, writtenBytes chunks) :: st1.fs },
               [Event.fetchCall url])

/-- `download_image` (lines 162-242): rate-limit admission first, then a
token (failure returns `False` before the `file_token` validation), then
the empty-`file_token` validation, then url resolution, then the streamed
fetch.  The returned `ImageInfo` carries the in-place dict mutations. -/
def downloadImageM (cfg : DLConfig) (env : Env) (st : DLState) (info : ImageInfo)
    (output_dir : String) : Bool × ImageInfo × DLState × List Event :=
  let w := waitForRateLimitM cfg env st
  let g := getTenantAccessTokenM env w.1
  if optStrTruthy g.1 = false then (false, info, g.2.1, w.2 ++ g.2.2)
  else if truthy info.file_token = false then (false, info, g.2.1, w.2 ++ g.2.2)
  else
    let r := getRealDownloadUrlM env g.2.1 info.file_token
    match r.1 with
    | Option.none => (false, info, r.2.1, w.2 ++ g.2.2 ++ r.2.2)
    | some url =>
        let f := fetchAndSave env r.2.1 info output_dir url
        (f.1, f.2.1, f.2.2.1, w.2 ++ g.2.2 ++ r.2.2 ++ f.2.2.2)

/-- `download_single_image_thread` (lines 244-253): run `download_image`,
then increment the shared progress counter under `download_lock`. -/
def downloadSingleImageThreadM (cfg : DLConfig) (env : Env) (st : DLState)
    (info : ImageInfo) (output_dir : String) : Bool × ImageInfo × DLState × List Event :=
  let d := downloadImageM cfg env st info output_dir
  (d.1, d.2.1, { d.2.2.1 with progress_count := d.2.2.1.progress_count + 1 }, d.2.2.2)

/-- The thread pool of `download_all_images` (lines 282-294), serialised in
task-submission order: every descriptor is submitted and produces exactly
one boolean outcome collected via `as_completed`. -/
def runTasks (cfg : DLConfig) (env : Env) (output_dir : String) :
    DLState → List ImageInfo → List (Bool × ImageInfo) × DLState × List Event
  | st, [] => ([], st, [])
  | st, info :: rest =>
      let d := downloadSingleImageThreadM cfg env st info output_dir
      let r := runTasks cfg env output_dir d.2.2.1 rest
      ((d.1, d.2.1) :: r.1, r.2.1, d.2.2.2 ++ r.2.2)

/-- The dict returned by `download_all_images`: the empty-extraction early
return carries only the three counters, the full report also carries
`output_dir` and `image_info_list` (`Option.none` = key absent). -/
structure Report where
  total : Nat
  success : Nat
  failed : Nat
  output_dir : Option String
  image_info_list : Option (List ImageInfo)

/-- `download_all_images` (lines 255-319): extract the descriptors; when
none are found return `{success: 0, failed: 0, total: 0}` before any
filesystem action; otherwise create the output directory, run every task,
count one success or failure per task, write the CSV and the text report,
and return the full report.  `none` models an exception raised by the
extraction. -/
def downloadAllImagesM (cfg : DLConfig) (env : Env) (st : DLState)
    (records : List (List (String × PyVal))) (output_base_dir : String)
    (create_timestamp_dir : Bool) : Option (Report × DLState × List Event) :=
  match extractImageInfo records with
  | Option.none => Option.none
  | some image_info_list =>
      match image_info_list with
      | [] =>
          some ({ total := 0, success := 0, failed := 0,
                  output_dir := Option.none, image_info_list := Option.none }, st, [])
      | infoHead :: infoTail =>
          let infos := infoHead :: infoTail
          let output_dir := if create_timestamp_dir
            then pyJoin output_base_dir ("images_" ++ env.timestamp)
            else output_base_dir
          let st0 := { st with progress_count := 0 }
          let r := runTasks cfg env output_dir st0 infos
          let success_count := (r.1.filter (fun x => x.1)).length
          let failed_count := (r.1.filter (fun x => !x.1)).length
          some ({ total := infos.length, success := success_count, failed := failed_count,
                  output_dir := some output_dir,
                  image_info_list := some (r.1.map (fun x => x.2)) },
                r.2.1,
                Event.mkdirCall output_dir :: (r.2.2 ++
                  [Event.csvWrite (pyJoin output_dir "image_download_report.csv"),
                   Event.reportWrite (pyJoin output_dir "download_report.txt")]))

/-- The sleep `wait_for_rate_limit` performs when entered at clock value
`t1` with previous stamp `last` (lines 71-74): the remainder of
`min_interval`, or nothing. -/
def sleepNeeded (minInt last t1 : ℚ) : ℚ :=
  if t1 - last < minInt then minInt - (t1 - last) else 0

/-- Successive values of `last_request_time` stamped by `n` consecutive
calls of `wait_for_rate_limit` (the lock serialises the calls; the list is
in admission order). -/
def admissionStamps (cfg : DLConfig) (env : Env) : DLState → Nat → List ℚ
  | _, 0 => []
  | st, n + 1 =>
      let w := waitForRateLimitM cfg env st
      w.1.last_request_time :: admissionStamps cfg env w.1 n

/-- Physical well-formedness of the clock schedule for `n` admissions: the
wall clock is monotone (the entry read is not before the previous stamp,
which was taken earlier in real time) and `time.sleep(d)` makes at least
`d` elapse before the post-sleep clock read. -/
def envPacedFromB (cfg : DLConfig) (env : Env) : DLState → Nat → Bool
  | _, 0 => true
  | st, n + 1 =>
      let t1 := env.times st.timeIdx
      let t2 := env.times (st.timeIdx + 1)
      let w := waitForRateLimitM cfg env st
      decide (st.last_request_time ≤ t1) &&
        decide (t1 + sleepNeeded cfg.min_interval st.last_request_time t1 ≤ t2) &&
        envPacedFromB cfg env w.1 n

/-- Program counter of one thread running `get_tenant_access_token`
concurrently: `start` is about to run the cached-token check (line 41),
`post` is about to issue the credential POST (line 49), `recv` has the POST
in flight and is about to process its response (lines 52-59), `done`
returned. -/
inductive TPc where
  | start : TPc
  | post : TPc
  | recv : TPc
  | done : Option String → TPc

/-- Shared instance state touched by concurrent `get_tenant_access_token`
calls, plus instrumentation: the number of credential POSTs currently in
flight, its maximum, and the total call count. -/
structure TokenShared where
  access_token : Option String
  token_expires_at : ℚ
  inFlight : Nat
  maxInFlight : Nat
  calls : Nat

/-- One atomic step of a thread inside `get_tenant_access_token`.  The
source takes no lock on this path, so steps of different threads may
interleave freely. -/
def tokenStep (now : ℚ) (resp : TokenResp) (sh : TokenShared) (pc : TPc) :
    TokenShared × TPc :=
  match pc with
  | TPc.start =>
      match sh.access_token with
      | some tok =>
          if tok.isEmpty then (sh, TPc.post)
          else if now < sh.token_expires_at then (sh, TPc.done (some tok))
          else (sh, TPc.post)
      | Option.none => (sh, TPc.post)
  | TPc.post =>
      ({ sh with inFlight := sh.inFlight + 1, calls := sh.calls + 1,
                 maxInFlight := max sh.maxInFlight (sh.inFlight + 1) }, TPc.recv)
  | TPc.recv =>
      match resp with
      | TokenResp.ok tok expire =>
          ({ sh with inFlight := sh.inFlight - 1, access_token := some tok,
                     token_expires_at := now + expire - 300 }, TPc.done (some tok))
      | _ => ({ sh with inFlight := sh.inFlight - 1 }, TPc.done Option.none)
  | TPc.done r => (sh, TPc.done r)

/-- Run a schedule (a list of thread ids) over threads executing
`get_tenant_access_token`; `resps tid` is the response thread `tid`
receives for its POST. -/
def runTokenSched (now : ℚ) (resps : Nat → TokenResp) :
    TokenShared × List TPc → List Nat → TokenShared × List TPc
  | s, [] => s
  | (sh, pcs), tid :: rest =>
      match pcs.get? tid with
      | Option.none => runTokenSched now resps (sh, pcs) rest
      | some pc =>
          let s2 := tokenStep now (resps tid) sh pc
          runTokenSched now resps (s2.1, pcs.set tid s2.2) rest

/-- Shared token state right after `__init__`: no cached token. -/
def initShared : TokenShared :=
  { access_token := Option.none, token_expires_at := 0, inFlight := 0,
    maxInFlight := 0, calls := 0 }

/-- Configuration used by the concrete runs: one request per second, two
workers (`max_workers` default). -/
def cfgA : DLConfig := { rate_limit := 1, max_workers := 2 }

/-- An environment where every endpoint succeeds: clock ticks 0, 1, 2, …,
token `tokA` valid for 7200 s, one resolved url `uA`, and a body of two
chunks delivered completely. -/
def envOk : Env :=
  { times := fun k => (k : ℚ), tokenResp := fun _ => TokenResp.ok "tokA" 7200,
    resolveResp := fun _ => ResolveResp.json 0 ["uA"],
    fetchResp := fun _ => FetchResp.ok [[10], [20]] Option.none,
    timestamp := "20250101_000000" }

/-- Like `envOk` but the body stream is interrupted after the first of two
chunks. -/
def envPart : Env :=
  { envOk with fetchResp := fun _ => FetchResp.ok [[1, 2], [3, 4]] (some (1, "ChunkedEncodingError")) }

/-- Like `envOk` but every credential POST fails with a non-zero code. -/
def envTokFail : Env :=
  { envOk with tokenResp := fun _ => TokenResp.errCode 99 "app not available" }

/-- Like `envOk` but the second body fetch fails with a transport error and
all others succeed. -/
def envRetry : Env :=
  { envOk with fetchResp := fun k => if k = 1 then FetchResp.exn "timeout" else FetchResp.ok [[9]] Option.none }

/-- Like `envOk` but the k-th body fetch returns the single chunk `[k+1]`,
so the two colliding downloads write distinguishable bytes. -/
def envColl : Env :=
  { envOk with fetchResp := fun k => FetchResp.ok [[k + 1]] Option.none }

/-- A descriptor as extracted from record `r1`: product `P1`, front-image
field, index 0, token `ftA`, name `a.jpg`. -/
def infoA : ImageInfo :=
  { record_id := PyVal.str "recA", product_name := PyVal.str "N",
    product_id := PyVal.str "P1", field_name := "正面图片", image_index := 0,
    file_token := PyVal.str "ftA", file_name := PyVal.str "a.jpg",
    file_size := PyVal.int 1, file_type := PyVal.str "image/jpeg",
    download_url := PyVal.str "", tmp_url := PyVal.str "" }

/-- `infoA` with an empty (falsy) `file_token`. -/
def infoEmptyTok : ImageInfo := { infoA with file_token := PyVal.str "" }

/-- A source record with one front-image attachment, product id `P1`. -/
def recP1 : List (String × PyVal) :=
  [("record_id", PyVal.str "r1"),
   ("fields", PyVal.dict [("品名", PyVal.str "n1"), ("编号", PyVal.str "P1"),
     ("正面图片", PyVal.list [PyVal.dict [("file_token", PyVal.str "ft1"),
       ("name", PyVal.str "a.jpg"), ("size", PyVal.int 5),
       ("type", PyVal.str "image/jpeg"), ("url", PyVal.str "u"),
       ("tmp_url", PyVal.str "t")]])])]

/-- Like `recP1` with product id `P2` and token `ft2`. -/
def recP2 : List (String × PyVal) :=
  [("record_id", PyVal.str "r2"),
   ("fields", PyVal.dict [("品名", PyVal.str "n2"), ("编号", PyVal.str "P2"),
     ("正面图片", PyVal.list [PyVal.dict [("file_token", PyVal.str "ft2"),
       ("name", PyVal.str "b.jpg"), ("size", PyVal.int 5),
       ("type", PyVal.str "image/jpeg"), ("url", PyVal.str "u"),
       ("tmp_url", PyVal.str "t")]])])]

/-- Like `recP1` with product id `P3` and token `ft3`. -/
def recP3 : List (String × PyVal) :=
  [("record_id", PyVal.str "r3"),
   ("fields", PyVal.dict [("品名", PyVal.str "n3"), ("编号", PyVal.str "P3"),
     ("正面图片", PyVal.list [PyVal.dict [("file_token", PyVal.str "ft3"),
       ("name", PyVal.str "c.jpg"), ("size", PyVal.int 5),
       ("type", PyVal.str "image/jpeg"), ("url", PyVal.str "u"),
       ("tmp_url", PyVal.str "t")]])])]

/-- Two records from DIFFERENT rows sharing product id `PX`, field and
index, with different file tokens and names of equal extension. -/
def recCollA : List (String × PyVal) :=
  [("record_id", PyVal.str "rowA"),
   ("fields", PyVal.dict [("编号", PyVal.str "PX"),
     ("正面图片", PyVal.list [PyVal.dict [("file_token", PyVal.str "ftX"),
       ("name", PyVal.str "x.jpg")]])])]

/-- Companion of `recCollA` from another row. -/
def recCollB : List (String × PyVal) :=
  [("record_id", PyVal.str "rowB"),
   ("fields", PyVal.dict [("编号", PyVal.str "PX"),
     ("正面图片", PyVal.list [PyVal.dict [("file_token", PyVal.str "ftY"),
       ("name", PyVal.str "y.jpg")]])])]

/-- The descriptor extracted from `recCollA`. -/
def dCollA : ImageInfo :=
  { record_id := PyVal.str "rowA", product_name := PyVal.str "未知产品",
    product_id := PyVal.str "PX", field_name := "正面图片", image_index := 0,
    file_token := PyVal.str "ftX", file_name := PyVal.str "x.jpg",
    file_size := PyVal.int 0, file_type := PyVal.str "",
    download_url := PyVal.str "", tmp_url := PyVal.str "" }

/-- The descriptor extracted from `recCollB`. -/
def dCollB : ImageInfo :=
  { record_id := PyVal.str "rowB", product_name := PyVal.str "未知产品",
    product_id := PyVal.str "PX", field_name := "正面图片", image_index := 0,
    file_token := PyVal.str "ftY", file_name := PyVal.str "y.jpg",
    file_size := PyVal.int 0, file_type := PyVal.str "",
    download_url := PyVal.str "", tmp_url := PyVal.str "" }

/-- Whether a credential-exchange response is a failure (non-zero code or
transport error), i.e. makes `get_tenant_access_token` return `None`. -/
def tokenRespFails : TokenResp → Bool
  | TokenResp.ok _ _ => false
  | TokenResp.errCode _ _ => true
  | TokenResp.transport _ => true

/-- The descriptor extracted from `recP1`. -/
def infoP1 : ImageInfo :=
  { record_id := PyVal.str "r1", product_name := PyVal.str "n1",
    product_id := PyVal.str "P1", field_name := "正面图片", image_index := 0,
    file_token := PyVal.str "ft1", file_name := PyVal.str "a.jpg",
    file_size := PyVal.int 5, file_type := PyVal.str "image/jpeg",
    download_url := PyVal.str "u", tmp_url := PyVal.str "t" }

theorem countEv_append (p : Event → Bool) (a b : List Event) :
    countEv p (a ++ b) = countEv p a + countEv p b := by
  simp [countEv, List.countP_append]

/-- The trace of one `wait_for_rate_limit` call: an optional sleep followed
by the admission. -/
theorem wait_evs (cfg : DLConfig) (env : Env) (st : DLState) :
    (waitForRateLimitM cfg env st).2 =
      (if env.times st.timeIdx - st.last_request_time < cfg.min_interval
        then [Event.sleepFor (cfg.min_interval - (env.times st.timeIdx - st.last_request_time))]
        else []) ++ [Event.rateAdmission] := rfl

theorem wait_count_admission (cfg : DLConfig) (env : Env) (st : DLState) :
    countEv isRateAdmission (waitForRateLimitM cfg env st).2 = 1 := by
  rw [wait_evs]; split <;> rfl

theorem wait_count_other (cfg : DLConfig) (env : Env) (st : DLState) (p : Event → Bool)
    (hs : ∀ d, p (Event.sleepFor d) = false) (ha : p Event.rateAdmission = false) :
    countEv p (waitForRateLimitM cfg env st).2 = 0 := by
  rw [wait_evs]; split <;> simp [countEv, List.countP_cons, hs, ha]

theorem refreshToken_evs (env : Env) (st : DLState) :
    (refreshToken env st).2.2 = [Event.tokenCall] := by
  unfold refreshToken
  rcases env.tokenResp st.tokenIdx <;> rfl

/-- One `get_tenant_access_token` call emits either nothing (cache hit) or
exactly one credential POST. -/
theorem getToken_evs (env : Env) (st : DLState) :
    (getTenantAccessTokenM env st).2.2 = [] ∨
    (getTenantAccessTokenM env st).2.2 = [Event.tokenCall] := by
  unfold getTenantAccessTokenM
  rcases st.access_token with _ | tok
  · exact Or.inr (refreshToken_evs env st)
  · by_cases he : tok.isEmpty
    · simp only [he, if_true]
      exact Or.inr (refreshToken_evs env st)
    · simp only [he, if_false]
      by_cases hlt : env.times st.timeIdx < st.token_expires_at
      · simp only [hlt, if_true]
        exact Or.inl rfl
      · simp only [hlt, if_false]
        exact Or.inr (refreshToken_evs env _)

theorem getToken_count_other (env : Env) (st : DLState) (p : Event → Bool)
    (hp : p Event.tokenCall = false) :
    countEv p (getTenantAccessTokenM env st).2.2 = 0 := by
  rcases getToken_evs env st with h | h <;> rw [h] <;> simp [countEv, List.countP_cons, hp]

theorem getToken_count_token (env : Env) (st : DLState) :
    countEv isTokenCallE (getTenantAccessTokenM env st).2.2 ≤ 1 := by
  rcases getToken_evs env st with h | h <;> rw [h] <;> simp [countEv, List.countP_cons, isTokenCallE]

/-- One `get_real_download_url` call emits the trace of its inner token call
followed by at most one resolution GET — and no rate-limit admission. -/
theorem getURL_evs (env : Env) (st : DLState) (ft : PyVal) :
    (getRealDownloadUrlM env st ft).2.2 = (getTenantAccessTokenM env st).2.2 ∨
    (getRealDownloadUrlM env st ft).2.2 =
      (getTenantAccessTokenM env st).2.2 ++ [Event.resolveCall ft] := by
  unfold getRealDownloadUrlM
  by_cases hg : optStrTruthy (getTenantAccessTokenM env st).1 = false
  · rw [if_pos hg]
    exact Or.inl rfl
  · rw [if_neg hg]
    right
    dsimp only
    split
    · rfl
    · split
      · split
        · rfl
        · split <;> rfl
      · rfl

theorem getURL_count_other (env : Env) (st : DLState) (ft : PyVal) (p : Event → Bool)
    (hp : p Event.tokenCall = false) (hr : p (Event.resolveCall ft) = false) :
    countEv p (getRealDownloadUrlM env st ft).2.2 = 0 := by
  rcases getURL_evs env st ft with h | h <;> rw [h]
  · exact getToken_count_other env st p hp
  · rw [countEv_append, getToken_count_other env st p hp]
    simp [countEv, List.countP_cons, hr]

theorem getURL_count_resolve (env : Env) (st : DLState) (ft : PyVal) :
    countEv isResolveCallE (getRealDownloadUrlM env st ft).2.2 ≤ 1 := by
  rcases getURL_evs env st ft with h | h <;> rw [h]
  · rw [getToken_count_other env st isResolveCallE rfl]
    exact Nat.zero_le 1
  · rw [countEv_append, getToken_count_other env st isResolveCallE rfl]
    simp [countEv, List.countP_cons, isResolveCallE]

theorem getURL_count_token (env : Env) (st : DLState) (ft : PyVal) :
    countEv isTokenCallE (getRealDownloadUrlM env st ft).2.2 ≤ 1 := by
  rcases getURL_evs env st ft with h | h <;> rw [h]
  · exact getToken_count_token env st
  · rw [countEv_append]
    have h2 : countEv isTokenCallE [Event.resolveCall ft] = 0 := rfl
    rw [h2]
    simpa using getToken_count_token env st

/-- The streamed-fetch stage always issues exactly one body GET. -/
theorem fetchSave_evs (env : Env) (st : DLState) (info : ImageInfo) (dir url : String) :
    (fetchAndSave env st info dir url).2.2.2 = [Event.fetchCall url] := by
  unfold fetchAndSave
  rcases hf : env.fetchResp st.fetchIdx with ⟨chunks, interrupt⟩ | d
  · rcases hp : buildFilePath info dir with _ | path
    · rfl
    · rcases interrupt with _ | ki
      · rfl
      · by_cases hk : ki.1 < chunks.length
        · simp only [hk, if_true]
        · simp only [hk, if_false]
  · rfl

/-- The trace of one `download_image` call contains exactly one rate-limit
admission, at most one resolution GET and at most one body GET. -/
theorem downloadImage_counts (cfg : DLConfig) (env : Env) (st : DLState) (info : ImageInfo)
    (dir : String) :
    countEv isRateAdmission (downloadImageM cfg env st info dir).2.2.2 = 1 ∧
    countEv isResolveCallE (downloadImageM cfg env st info dir).2.2.2 ≤ 1 ∧
    countEv isFetchCallE (downloadImageM cfg env st info dir).2.2.2 ≤ 1 := by
  have hresz : ∀ u, countEv isResolveCallE [Event.fetchCall u] = 0 := fun _ => rfl
  have hfz : ∀ u, countEv isFetchCallE [Event.fetchCall u] = 1 := fun _ => rfl
  have haz : ∀ u, countEv isRateAdmission [Event.fetchCall u] = 0 := fun _ => rfl
  unfold downloadImageM
  dsimp only
  split
  · refine ⟨?_, ?_, ?_⟩
    · rw [countEv_append, wait_count_admission, getToken_count_other _ _ _ rfl]
    · rw [countEv_append, wait_count_other _ _ _ _ (fun _ => rfl) rfl,
        getToken_count_other _ _ _ rfl]
      decide
    · rw [countEv_append, wait_count_other _ _ _ _ (fun _ => rfl) rfl,
        getToken_count_other _ _ _ rfl]
      decide
  · split
    · refine ⟨?_, ?_, ?_⟩
      · rw [countEv_append, wait_count_admission, getToken_count_other _ _ _ rfl]
      · rw [countEv_append, wait_count_other _ _ _ _ (fun _ => rfl) rfl,
          getToken_count_other _ _ _ rfl]
        decide
      · rw [countEv_append, wait_count_other _ _ _ _ (fun _ => rfl) rfl,
          getToken_count_other _ _ _ rfl]
        decide
    · split
      · refine ⟨?_, ?_, ?_⟩
        · rw [countEv_append, countEv_append, wait_count_admission,
            getToken_count_other _ _ _ rfl, getURL_count_other _ _ _ _ rfl rfl]
        · rw [countEv_append, countEv_append, wait_count_other _ _ _ _ (fun _ => rfl) rfl,
            getToken_count_other _ _ _ rfl]
          simpa using getURL_count_resolve _ _ _
        · rw [countEv_append, countEv_append, wait_count_other _ _ _ _ (fun _ => rfl) rfl,
            getToken_count_other _ _ _ rfl, getURL_count_other _ _ _ _ rfl rfl]
          decide
      · rename_i url heq
        refine ⟨?_, ?_, ?_⟩
        · rw [countEv_append, countEv_append, countEv_append, wait_count_admission,
            getToken_count_other _ _ _ rfl, getURL_count_other _ _ _ _ rfl rfl,
            fetchSave_evs, haz]
        · rw [countEv_append, countEv_append, countEv_append,
            wait_count_other _ _ _ _ (fun _ => rfl) rfl, getToken_count_other _ _ _ rfl,
            fetchSave_evs, hresz]
          simpa using getURL_count_resolve _ _ _
        · rw [countEv_append, countEv_append, countEv_append,
            wait_count_other _ _ _ _ (fun _ => rfl) rfl, getToken_count_other _ _ _ rfl,
            getURL_count_other _ _ _ _ rfl rfl, fetchSave_evs, hfz]

/-- When no token is cached and the credential POST fails,
`get_tenant_access_token` returns `None` after exactly one token call and
still holds no token. -/
theorem getToken_fail (env : Env) (s : DLState) (hs : s.access_token = Option.none)
    (hfail : ∀ k, tokenRespFails (env.tokenResp k) = true) :
    ∃ sA, getTenantAccessTokenM env s = (Option.none, sA, [Event.tokenCall]) ∧
      sA.access_token = Option.none := by
  unfold getTenantAccessTokenM refreshToken
  rw [hs]
  dsimp only
  rcases hresp : env.tokenResp s.tokenIdx with ⟨t, e⟩ | ⟨c, m⟩ | m
  · have hk := hfail s.tokenIdx
    rw [hresp] at hk
    simp [tokenRespFails] at hk
  · exact ⟨_, rfl, rfl⟩
  · exact ⟨_, rfl, rfl⟩

/-- When no token is cached and the credential POST fails, `download_image`
returns `False` right after the admission and the one token call: the
descriptor is not mutated, no resolution and no fetch happen, and the
token cache stays empty. -/
theorem downloadImage_token_fail (cfg : DLConfig) (env : Env) (st : DLState) (info : ImageInfo)
    (dir : String) (htok : st.access_token = Option.none)
    (hfail : ∀ k, tokenRespFails (env.tokenResp k) = true) :
    ∃ stA, downloadImageM cfg env st info dir =
        (false, info, stA, (waitForRateLimitM cfg env st).2 ++ [Event.tokenCall]) ∧
      stA.access_token = Option.none := by
  obtain ⟨sA, hgeq, hsA⟩ := getToken_fail env (waitForRateLimitM cfg env st).1 htok hfail
  refine ⟨sA, ?_, hsA⟩
  unfold downloadImageM
  dsimp only
  rw [hgeq]
  rfl

/-- Running the whole pool while the credential endpoint keeps failing and
no token is cached: every task fails unmutated, one token call per task,
no resolution, no fetch. -/
theorem runTasks_token_fail (cfg : DLConfig) (env : Env) (dir : String) :
    ∀ (infos : List ImageInfo) (st : DLState), st.access_token = Option.none →
      (∀ k, tokenRespFails (env.tokenResp k) = true) →
      ∃ st2 evs, runTasks cfg env dir st infos = (infos.map (fun i => (false, i)), st2, evs) ∧
        st2.access_token = Option.none ∧
        countEv isTokenCallE evs = infos.length ∧
        countEv isResolveCallE evs = 0 ∧ countEv isFetchCallE evs = 0
  | [], st, htok, _ => ⟨st, [], rfl, htok, rfl, rfl, rfl⟩
  | info :: rest, st, htok, hfail => by
      obtain ⟨stA, hd, hA⟩ := downloadImage_token_fail cfg env st info dir htok hfail
      obtain ⟨st2, evs, hrun, htok2, hcnt, hres, hfet⟩ :=
        runTasks_token_fail cfg env dir rest
          { stA with progress_count := stA.progress_count + 1 } (by exact hA) hfail
      refine ⟨st2, (waitForRateLimitM cfg env st).2 ++ [Event.tokenCall] ++ evs, ?_, htok2,
        ?_, ?_, ?_⟩
      · show runTasks cfg env dir st (info :: rest) = _
        unfold runTasks downloadSingleImageThreadM
        rw [hd]
        dsimp only
        rw [hrun]
        rfl
      · rw [countEv_append, countEv_append, wait_count_other _ _ _ _ (fun _ => rfl) rfl, hcnt]
        have h1 : countEv isTokenCallE [Event.tokenCall] = 1 := rfl
        rw [h1, List.length_cons]
        omega
      · rw [countEv_append, countEv_append, wait_count_other _ _ _ _ (fun _ => rfl) rfl, hres]
        rfl
      · rw [countEv_append, countEv_append, wait_count_other _ _ _ _ (fun _ => rfl) rfl, hfet]
        rfl

/-- The pool produces exactly one outcome per submitted descriptor. -/
theorem runTasks_length (cfg : DLConfig) (env : Env) (dir : String) :
    ∀ (infos : List ImageInfo) (st : DLState),
      (runTasks cfg env dir st infos).1.length = infos.length
  | [], _ => rfl
  | _ :: rest, st => by
      unfold runTasks
      dsimp only
      rw [List.length_cons, List.length_cons, runTasks_length cfg env dir rest]

/-- Splitting a result list by outcome: successes plus failures equal the
total. -/
theorem filter_length_split (l : List (Bool × ImageInfo)) :
    (l.filter (fun x => x.1)).length + (l.filter (fun x => !x.1)).length = l.length := by
  induction l with
  | nil => rfl
  | cons a t ih =>
      rcases h : a.1 <;> simp [List.filter_cons, h] <;> omega

theorem map_false_filter_pos (l : List ImageInfo) :
    ((l.map (fun i => (false, i))).filter (fun x => x.1)).length = 0 := by
  induction l with
  | nil => rfl
  | cons a t ih => simp [List.filter_cons, ih]

theorem map_false_filter_neg (l : List ImageInfo) :
    ((l.map (fun i => (false, i))).filter (fun x => !x.1)).length = l.length := by
  induction l with
  | nil => rfl
  | cons a t ih => simp [List.filter_cons, ih]

theorem map_false_map_snd (l : List ImageInfo) :
    ((l.map (fun i => (false, i))).map (fun x => x.2)) = l := by
  induction l with
  | nil => rfl
  | cons a t ih => simp [ih]

/-- Counting inside the full `download_all_images` trace reduces to counting
inside the pool trace for network-call events. -/
theorem countEv_wrap (p : Event → Bool) (d c r : String) (evs : List Event)
    (h1 : p (Event.mkdirCall d) = false) (h2 : p (Event.csvWrite c) = false)
    (h3 : p (Event.reportWrite r) = false) :
    countEv p (Event.mkdirCall d :: (evs ++ [Event.csvWrite c, Event.reportWrite r])) =
      countEv p evs := by
  rw [countEv, List.countP_cons, countEv, h1]
  simp [List.countP_append, List.countP_cons, h1, h2, h3]

/-- One paced admission advances the stamp by at least `min_interval`:
the entry clock read is at or after the previous stamp, and the post-sleep
clock read reflects the sleep. -/
theorem stamp_gap (minInt last t1 t2 : ℚ) (_h1 : last ≤ t1)
    (h2 : t1 + sleepNeeded minInt last t1 ≤ t2) : last + minInt ≤ t2 := by
  unfold sleepNeeded at h2
  split at h2 <;> linarith [_h1, h2]

/-- The first stamp of a paced admission sequence is at least
`min_interval` after the initial `last_request_time`. -/
theorem admissionStamps_head_ge (cfg : DLConfig) (env : Env) (st : DLState) (n : Nat)
    (h : envPacedFromB cfg env st n = true) :
    ∀ b ∈ (admissionStamps cfg env st n).head?, st.last_request_time + cfg.min_interval ≤ b := by
  cases n with
  | zero => intro b hb; simp [admissionStamps] at hb
  | succ m =>
      intro b hb
      unfold admissionStamps at hb
      simp only [Option.mem_def, List.head?_cons, Option.some.injEq] at hb
      unfold envPacedFromB at h
      simp only [Bool.and_eq_true, decide_eq_true_eq] at h
      obtain ⟨⟨h1, h2⟩, _⟩ := h
      rw [← hb]
      exact stamp_gap cfg.min_interval st.last_request_time (env.times st.timeIdx)
        (env.times (st.timeIdx + 1)) h1 h2

/-- C1: for every submitted record list whose extraction succeeds, the
report returned by `download_all_images` satisfies `total = number of
extracted descriptors` and `total = success + failed`: every descriptor
contributes exactly one outcome, with no duplicates and no omissions. -/
theorem report_counts_conserved (cfg : DLConfig) (env : Env) (st : DLState)
    (records : List (List (String × PyVal))) (base : String) (flag : Bool)
    (infos : List ImageInfo) (hext : extractImageInfo records = some infos) :
    ∃ report st2 evs, downloadAllImagesM cfg env st records base flag = some (report, st2, evs) ∧
      report.total = infos.length ∧ report.success + report.failed = report.total := by
  cases infos with
  | nil =>
      unfold downloadAllImagesM
      rw [hext]
      exact ⟨_, _, _, rfl, rfl, rfl⟩
  | cons a l =>
      unfold downloadAllImagesM
      rw [hext]
      dsimp only
      refine ⟨_, _, _, rfl, rfl, ?_⟩
      dsimp only
      rw [filter_length_split, runTasks_length]

/-- C1 witness: one record with one attachment; the report counts check out
on this concrete input. -/
theorem report_counts_conserved_check :
    extractImageInfo [recP1] = some [infoP1] ∧
    (∃ report st2 evs, downloadAllImagesM cfgA envOk initState [recP1] "imgs" false =
        some (report, st2, evs) ∧
      report.total = 1 ∧ report.success + report.failed = report.total) :=
  ⟨rfl, report_counts_conserved cfgA envOk initState [recP1] "imgs" false [infoP1] rfl⟩

/-- C2: under the physical clock assumptions (monotone wall clock across the
lock-serialised calls, `time.sleep(d)` lets at least `d` elapse), any two
consecutive `last_request_time` stamps produced by `wait_for_rate_limit`
are at least `min_interval = 1 / rate_limit` apart, for any number of
admissions and hence any number of workers; the stamp is taken before the
lock is released and the call never fails (it is total). -/
theorem rate_limiter_min_gap (cfg : DLConfig) (env : Env) (st : DLState) (n : Nat)
    (h : envPacedFromB cfg env st n = true) :
    cfg.min_interval = 1 / cfg.rate_limit ∧
    List.Chain' (fun a b => a + 1 / cfg.rate_limit ≤ b) (admissionStamps cfg env st n) := by
  refine ⟨rfl, ?_⟩
  induction n generalizing st with
  | zero => exact List.chain'_nil
  | succ m ih =>
      unfold admissionStamps
      unfold envPacedFromB at h
      simp only [Bool.and_eq_true, decide_eq_true_eq] at h
      obtain ⟨⟨h1, h2⟩, h3⟩ := h
      rw [List.chain'_cons']
      exact ⟨admissionStamps_head_ge cfg env (waitForRateLimitM cfg env st).1 m h3, ih _ h3⟩

/-- C2 witness: three consecutive admissions under the integer clock
0, 1, 2, … with one request per second. -/
theorem rate_limiter_min_gap_check :
    envPacedFromB cfgA envOk initState 3 = true ∧
    List.Chain' (fun a b => a + 1 / cfgA.rate_limit ≤ b)
      (admissionStamps cfgA envOk initState 3) :=
  ⟨by with_unfolding_all decide,
   (rate_limiter_min_gap cfgA envOk initState 3 (by with_unfolding_all decide)).2⟩

/-- C3 counterexample: `get_tenant_access_token` takes no lock, so two
concurrent callers that both pass the cached-token check with no token
cached both issue the credential POST: the run of the interleaving
`[0, 1, 0, 1, 0, 1]` reaches two refresh calls in flight at once and two
total calls, refuting that the refresh path is a critical section with at
most one in-flight refresh. -/
theorem token_refresh_race_cex :
    (runTokenSched 0 (fun _ => TokenResp.ok "T" 7200) (initShared, [TPc.start, TPc.start])
      [0, 1, 0, 1, 0, 1]).1.maxInFlight = 2 ∧
    (runTokenSched 0 (fun _ => TokenResp.ok "T" 7200) (initShared, [TPc.start, TPc.start])
      [0, 1, 0, 1, 0, 1]).1.calls = 2 := by
  exact ⟨by with_unfolding_all rfl, by with_unfolding_all rfl⟩

/-- C3 amended: the refresh path of `get_tenant_access_token` is not
synchronised: with no cached token, two concurrent callers can interleave
so that both issue a refresh call (two calls, both in flight at once),
each caller returns the token of its own response rather than reusing a
single in-flight result, and the cache ends up holding whichever response
was written last. -/
theorem token_refresh_unsynchronized (tA tB : String) (eA eB : ℚ) :
    (runTokenSched 0 (fun tid => if tid = 0 then TokenResp.ok tA eA else TokenResp.ok tB eB)
      (initShared, [TPc.start, TPc.start]) [0, 1, 0, 1, 0, 1]).1.calls = 2 ∧
    (runTokenSched 0 (fun tid => if tid = 0 then TokenResp.ok tA eA else TokenResp.ok tB eB)
      (initShared, [TPc.start, TPc.start]) [0, 1, 0, 1, 0, 1]).1.maxInFlight = 2 ∧
    (runTokenSched 0 (fun tid => if tid = 0 then TokenResp.ok tA eA else TokenResp.ok tB eB)
      (initShared, [TPc.start, TPc.start]) [0, 1, 0, 1, 0, 1]).1.access_token = some tB ∧
    (runTokenSched 0 (fun tid => if tid = 0 then TokenResp.ok tA eA else TokenResp.ok tB eB)
      (initShared, [TPc.start, TPc.start]) [0, 1, 0, 1, 0, 1]).2 =
      [TPc.done (some tA), TPc.done (some tB)] :=
  ⟨rfl, rfl, rfl, rfl⟩

/-- C4 counterexample: with `max_workers = 2` and a credential endpoint that
always fails, a batch of three descriptors still dispatches every task and
performs one credential network call per descriptor (three calls — more
than the at most two in-flight tasks the claim would allow before the pool
"drains"), and no failure is recorded with any error classification
(`error_message` stays absent); only the resolve/fetch counts are zero. -/
theorem auth_failure_drain_cex :
    (downloadAllImagesM cfgA envTokFail initState [recP1, recP2, recP3] "imgs" false).map
      (fun r => countEv isTokenCallE r.2.2) = some 3 ∧
    (downloadAllImagesM cfgA envTokFail initState [recP1, recP2, recP3] "imgs" false).map
      (fun r => (r.1.success, r.1.failed)) = some (0, 3) ∧
    (downloadAllImagesM cfgA envTokFail initState [recP1, recP2, recP3] "imgs" false).map
      (fun r => countEv isResolveCallE r.2.2 + countEv isFetchCallE r.2.2) = some 0 ∧
    (downloadAllImagesM cfgA envTokFail initState [recP1, recP2, recP3] "imgs" false).map
      (fun r => (r.1.image_info_list.getD []).map (fun i => i.error_message)) =
      some [Option.none, Option.none, Option.none] ∧
    cfgA.max_workers = 2 := by
  refine ⟨?_, ?_, ?_, ?_, rfl⟩ <;> with_unfolding_all decide

/-- C4 amended: when the credential endpoint fails from the start and no
token is cached, no draining happens: every descriptor is still dispatched
and each independently performs one rate-limit admission and one
credential network call before failing; every descriptor fails with no
error classification recorded on it (the report carries the descriptors
unchanged), and zero resolution calls and zero body-fetch calls occur. -/
theorem auth_failure_no_drain (cfg : DLConfig) (env : Env) (st : DLState)
    (records : List (List (String × PyVal))) (base : String) (infos : List ImageInfo)
    (htok : st.access_token = Option.none)
    (hfail : ∀ k, tokenRespFails (env.tokenResp k) = true)
    (hext : extractImageInfo records = some infos) (hne : infos ≠ []) :
    ∃ st2 evs, downloadAllImagesM cfg env st records base false =
        some ({ total := infos.length, success := 0, failed := infos.length,
                output_dir := some base, image_info_list := some infos }, st2, evs) ∧
      countEv isTokenCallE evs = infos.length ∧
      countEv isResolveCallE evs = 0 ∧ countEv isFetchCallE evs = 0 := by
  obtain ⟨st2, tevs, hrun, _, hcnt, hres, hfet⟩ :=
    runTasks_token_fail cfg env base infos { st with progress_count := 0 } htok hfail
  cases infos with
  | nil => exact absurd rfl hne
  | cons a l =>
      refine ⟨st2,
        Event.mkdirCall base :: (tevs ++
          [Event.csvWrite (pyJoin base "image_download_report.csv"),
           Event.reportWrite (pyJoin base "download_report.txt")]), ?_, ?_, ?_, ?_⟩
      · unfold downloadAllImagesM
        rw [hext]
        dsimp only
        simp only [Bool.false_eq_true, if_false]
        rw [hrun]
        dsimp only
        rw [map_false_filter_pos, map_false_filter_neg, map_false_map_snd]
      · rw [countEv_wrap _ _ _ _ _ rfl rfl rfl, hcnt]
      · rw [countEv_wrap _ _ _ _ _ rfl rfl rfl, hres]
      · rw [countEv_wrap _ _ _ _ _ rfl rfl rfl, hfet]

/-- C4 witness: one descriptor against the always-failing credential
endpoint. -/
theorem auth_failure_no_drain_check :
    ∃ st2 evs, downloadAllImagesM cfgA envTokFail initState [recP1] "imgs" false =
        some ({ total := 1, success := 0, failed := 1, output_dir := some "imgs",
                image_info_list := some [infoP1] }, st2, evs) ∧
      countEv isTokenCallE evs = 1 ∧
      countEv isResolveCallE evs = 0 ∧ countEv isFetchCallE evs = 0 :=
  auth_failure_no_drain cfgA envTokFail initState [recP1] "imgs" [infoP1] rfl
    (fun _ => rfl) rfl (by simp)

/-- C5 counterexample: three descriptors, the second body fetch fails with a
transport error and every other call succeeds, under the constructor
defaults `max_retries = 3`, `retry_delay = 2`: the run performs exactly one
fetch per descriptor (three in total, not four), the second descriptor is
never retried, and the final report is success 2 / failed 1 instead of the
success 3 / failed 0 the retry policy would give. -/
theorem transient_failure_no_retry_cex :
    (downloadAllImagesM cfgA envRetry initState [recP1, recP2, recP3] "imgs" false).map
      (fun r => (r.1.success, r.1.failed)) = some (2, 1) ∧
    (downloadAllImagesM cfgA envRetry initState [recP1, recP2, recP3] "imgs" false).map
      (fun r => countEv isFetchCallE r.2.2) = some 3 ∧
    cfgA.max_retries = 3 := by
  refine ⟨?_, ?_, rfl⟩ <;> with_unfolding_all decide

/-- C5 amended: `max_retries` and `retry_delay` are set in the constructor
but never read: `download_image` is unchanged under any values of the two
retry attributes, and every task performs at most one resolution call and
at most one body fetch — no error, transient or not, triggers a retry. -/
theorem no_retry_single_attempt (cfg : DLConfig) (n : Nat) (d : ℚ) (env : Env) (st : DLState)
    (info : ImageInfo) (dir : String) :
    downloadImageM { cfg with max_retries := n, retry_delay := d } env st info dir =
      downloadImageM cfg env st info dir ∧
    countEv isResolveCallE (downloadImageM cfg env st info dir).2.2.2 ≤ 1 ∧
    countEv isFetchCallE (downloadImageM cfg env st info dir).2.2.2 ≤ 1 :=
  ⟨rfl, (downloadImage_counts cfg env st info dir).2.1,
   (downloadImage_counts cfg env st info dir).2.2⟩

/-- C6 counterexample: the body stream of `infoA` is interrupted after one
of two chunks; afterwards a file exists at the FINAL output path holding
exactly the first chunk — a partial file at the final path, since the full
body would be `writtenBytes [[1, 2], [3, 4]] = [1, 2, 3, 4]`. -/
theorem incomplete_file_at_final_path_cex :
    (downloadImageM cfgA envPart initState infoA "imgs").1 = false ∧
    fsLookup (downloadImageM cfgA envPart initState infoA "imgs").2.2.1.fs
      "imgs/P1_正面图片_0.jpg" = some [1, 2] ∧
    [1, 2] ≠ writtenBytes [[1, 2], [3, 4]] := by
  refine ⟨?_, ?_, ?_⟩ <;> with_unfolding_all decide

/-- C6 amended: `download_image` opens the final output path directly
(truncating it) and streams into it — there is no temporary path and no
rename — so a transfer that fails after `k` chunks leaves a file at the
final path holding exactly the bytes written so far, while the failure is
recorded on the descriptor. -/
theorem direct_write_leaves_incomplete_file (env : Env) (st : DLState) (info : ImageInfo)
    (dir url path msg : String) (chunks : List (List Nat)) (k : Nat)
    (hresp : env.fetchResp st.fetchIdx = FetchResp.ok chunks (some (k, msg)))
    (hk : k < chunks.length)
    (hpath : buildFilePath info dir = some path) :
    (fetchAndSave env st info dir url).1 = false ∧
    fsLookup (fetchAndSave env st info dir url).2.2.1.fs path =
      some (writtenBytes (chunks.take k)) ∧
    (fetchAndSave env st info dir url).2.1.download_success = some false ∧
    (fetchAndSave env st info dir url).2.1.error_message = some msg := by
  unfold fetchAndSave
  rw [hresp, hpath]
  dsimp only
  rw [if_pos hk]
  refine ⟨rfl, ?_, rfl, rfl⟩
  simp [fsLookup]

/-- C6 witness: the interrupted transfer of `envPart` leaves the first chunk
at the final path. -/
theorem direct_write_leaves_incomplete_file_check :
    envPart.fetchResp initState.fetchIdx =
      FetchResp.ok [[1, 2], [3, 4]] (some (1, "ChunkedEncodingError")) ∧
    ((fetchAndSave envPart initState infoA "imgs" "uA").1 = false ∧
     fsLookup (fetchAndSave envPart initState infoA "imgs" "uA").2.2.1.fs
       "imgs/P1_正面图片_0.jpg" = some (writtenBytes ([[1, 2], [3, 4]].take 1)) ∧
     (fetchAndSave envPart initState infoA "imgs" "uA").2.1.download_success = some false ∧
     (fetchAndSave envPart initState infoA "imgs" "uA").2.1.error_message =
       some "ChunkedEncodingError") :=
  ⟨rfl, direct_write_leaves_incomplete_file envPart initState infoA "imgs" "uA"
    "imgs/P1_正面图片_0.jpg" "ChunkedEncodingError" [[1, 2], [3, 4]] 1 rfl (by decide) rfl⟩

/-- C7 counterexample: a descriptor with an empty `file_token`, processed
with no cached token, fails — but only after `download_image` has already
admitted through the rate limiter and performed one credential-exchange
network call (the token fetch at line 167 precedes the validation at line
175), refuting that no network call of any kind is made. -/
theorem empty_token_network_call_cex :
    (downloadImageM cfgA envOk initState infoEmptyTok "imgs").1 = false ∧
    countEv isTokenCallE (downloadImageM cfgA envOk initState infoEmptyTok "imgs").2.2.2 = 1 ∧
    countEv isResolveCallE (downloadImageM cfgA envOk initState infoEmptyTok "imgs").2.2.2 = 0 ∧
    countEv isFetchCallE (downloadImageM cfgA envOk initState infoEmptyTok "imgs").2.2.2 = 0 := by
  refine ⟨?_, ?_, ?_, ?_⟩ <;> with_unfolding_all decide

/-- C7 amended: a descriptor whose `file_token` is falsy always yields a
failed result with the descriptor unmutated (no `ValidationError` or any
other classification is recorded) and with no resolution call and no
body-fetch call — but the failure comes only after the rate-limit
admission and the token acquisition, which may itself hit the network. -/
theorem empty_file_token_fails_without_resolve (cfg : DLConfig) (env : Env) (st : DLState)
    (info : ImageInfo) (dir : String) (h : truthy info.file_token = false) :
    (downloadImageM cfg env st info dir).1 = false ∧
    (downloadImageM cfg env st info dir).2.1 = info ∧
    countEv isResolveCallE (downloadImageM cfg env st info dir).2.2.2 = 0 ∧
    countEv isFetchCallE (downloadImageM cfg env st info dir).2.2.2 = 0 := by
  unfold downloadImageM
  dsimp only
  by_cases hg : optStrTruthy (getTenantAccessTokenM env (waitForRateLimitM cfg env st).1).1 = false
  · rw [if_pos hg]
    refine ⟨rfl, rfl, ?_, ?_⟩
    · rw [countEv_append, wait_count_other _ _ _ _ (fun _ => rfl) rfl,
        getToken_count_other _ _ _ rfl]
    · rw [countEv_append, wait_count_other _ _ _ _ (fun _ => rfl) rfl,
        getToken_count_other _ _ _ rfl]
  · rw [if_neg hg, if_pos h]
    refine ⟨rfl, rfl, ?_, ?_⟩
    · rw [countEv_append, wait_count_other _ _ _ _ (fun _ => rfl) rfl,
        getToken_count_other _ _ _ rfl]
    · rw [countEv_append, wait_count_other _ _ _ _ (fun _ => rfl) rfl,
        getToken_count_other _ _ _ rfl]

/-- C7 witness: the empty-token descriptor under the all-success
environment. -/
theorem empty_file_token_fails_without_resolve_check :
    truthy infoEmptyTok.file_token = false ∧
    ((downloadImageM cfgA envOk initState infoEmptyTok "imgs").1 = false ∧
     (downloadImageM cfgA envOk initState infoEmptyTok "imgs").2.1 = infoEmptyTok ∧
     countEv isResolveCallE (downloadImageM cfgA envOk initState infoEmptyTok "imgs").2.2.2 = 0 ∧
     countEv isFetchCallE (downloadImageM cfgA envOk initState infoEmptyTok "imgs").2.2.2 = 0) :=
  ⟨rfl, empty_file_token_fails_without_resolve cfgA envOk initState infoEmptyTok "imgs" rfl⟩

/-- C8 counterexample: a fully successful download of `infoA` performs one
resolution call and one body fetch but only ONE rate-limit admission in
total — the resolver does not consume its own rate-limit slot, refuting
the claim that resolution admits in addition to the fetch. -/
theorem resolver_no_admission_cex :
    (downloadImageM cfgA envOk initState infoA "imgs").1 = true ∧
    countEv isRateAdmission (downloadImageM cfgA envOk initState infoA "imgs").2.2.2 = 1 ∧
    countEv isResolveCallE (downloadImageM cfgA envOk initState infoA "imgs").2.2.2 = 1 ∧
    countEv isFetchCallE (downloadImageM cfgA envOk initState infoA "imgs").2.2.2 = 1 := by
  refine ⟨?_, ?_, ?_, ?_⟩ <;> with_unfolding_all decide

/-- C8 amended: `get_real_download_url` performs no rate-limit admission of
its own; `download_image` admits exactly once, at its start, and that
single slot covers the token fetch, the URL resolution and the body fetch
together. -/
theorem single_admission_per_download (cfg : DLConfig) (env : Env) (st : DLState)
    (info : ImageInfo) (dir : String) (ft : PyVal) :
    countEv isRateAdmission (downloadImageM cfg env st info dir).2.2.2 = 1 ∧
    countEv isRateAdmission (getRealDownloadUrlM env st ft).2.2 = 0 :=
  ⟨(downloadImage_counts cfg env st info dir).1, getURL_count_other env st ft _ rfl rfl⟩

/-- C9: when extraction yields no descriptors, `download_all_images`
returns exactly `{success: 0, failed: 0, total: 0}` — a dict without the
`output_dir` and `image_info_list` keys of the full report — before any
filesystem action (no directory creation, no CSV, no report file) and
without touching the downloader state. -/
theorem empty_extraction_early_return (cfg : DLConfig) (env : Env) (st : DLState)
    (records : List (List (String × PyVal))) (base : String) (flag : Bool)
    (hext : extractImageInfo records = some []) :
    downloadAllImagesM cfg env st records base flag =
      some ({ total := 0, success := 0, failed := 0,
              output_dir := Option.none, image_info_list := Option.none }, st, []) := by
  unfold downloadAllImagesM
  rw [hext]

/-- C9 witness: the empty record list extracts nothing. -/
theorem empty_extraction_early_return_check :
    extractImageInfo ([] : List (List (String × PyVal))) = some [] ∧
    downloadAllImagesM cfgA envOk initState [] "imgs" false =
      some ({ total := 0, success := 0, failed := 0,
              output_dir := Option.none, image_info_list := Option.none }, initState, []) :=
  ⟨rfl, empty_extraction_early_return cfgA envOk initState [] "imgs" false rfl⟩

/-- C10: the output path depends only on the sanitised product id, the
field name, the index and the extension of the declared name — not on the
record id that is part of descriptor identity; consequently the two
descriptors extracted from the distinct records `recCollA` / `recCollB`
(different record ids, same product id, field and index) map to the same
path, and downloading both leaves the bytes of the LATER download at that
path, overwriting the earlier file. -/
theorem output_path_ignores_record_id (i1 i2 : ImageInfo) (dir : String)
    (h1 : i1.product_id = i2.product_id) (h2 : i1.field_name = i2.field_name)
    (h3 : i1.image_index = i2.image_index)
    (h4 : extOfName i1.file_name = extOfName i2.file_name) :
    buildFilePath i1 dir = buildFilePath i2 dir ∧
    (extractImageInfo [recCollA, recCollB] = some [dCollA, dCollB] ∧
     dCollA.record_id ≠ dCollB.record_id ∧
     buildFilePath dCollA "imgs" = buildFilePath dCollB "imgs" ∧
     (downloadAllImagesM cfgA envColl initState [recCollA, recCollB] "imgs" false).map
       (fun r => fsLookup r.2.1.fs "imgs/PX_正面图片_0.jpg") = some (some [2])) := by
  constructor
  · unfold buildFilePath buildFileName
    rw [h1, h2, h3, h4]
  · refine ⟨rfl, ?_, rfl, ?_⟩
    · simp [dCollA, dCollB]
    · with_unfolding_all decide

/-- C10 witness: the two colliding descriptors agree on every path
component, so the universal part applies to them directly. -/
theorem output_path_ignores_record_id_check :
    dCollA.product_id = dCollB.product_id ∧
    buildFilePath dCollA "imgs" = buildFilePath dCollB "imgs" :=
  ⟨rfl, (output_path_ignores_record_id dCollA dCollB "imgs" rfl rfl rfl rfl).1⟩
